import Mathlib

/-
Verification of the STS caching credentials provider (src/src/lib.rs).

The provider holds a cache slot `cred_cache : RwLock<Option<Credentials>>`
together with immutable configuration captured at construction.  Its only
operation, `get_credentials` (exposed as `provide_credentials`), first calls
`stored_credentials` (the freshness check, fast path) and, when that yields
nothing, takes the write lock, calls `load_credentials` (one STS AssumeRole
call) and stores the outcome.

Shallow embedding conventions:
  * `SystemTime` instants are seconds-since-epoch `Nat`; `SystemTime::now()`
    becomes an explicit `now : Nat` argument.
  * The network send of the AssumeRole call is the environment: it is passed
    in as `send_result : Except String AssumeRoleOutput` (`.error` = the SDK
    call failed with that message).
  * Rust panics (`Option::unwrap`, `try_into().unwrap()`) are modelled as the
    `.error` constructor of an outer `Except String`, distinct from the inner
    `Except CredentialsError` that models `aws_types::credentials::Result`.
  * The async lock only serializes access; each complete call is embedded as
    a pure state transformer on the provider value.  `stored_credentials`
    takes the read lock and performs no write, so it is embedded as a pure
    function that does not produce a new state.
  * `get_credentials` additionally returns the number of issuer (STS) calls
    it performed, counted at the moment `load_credentials` is entered.
-/

namespace STSCaching

/-- Credentials as constructed by `aws_types::Credentials::new` in
`load_credentials`: key id, secret key, optional session token, optional
expiry instant, provider name. -/
structure Credentials where
  access_key_id : String
  secret_access_key : String
  session_token : Option String
  expiry : Option Nat
  provider_name : String
deriving Repr, DecidableEq

/-- The two `aws_types::credentials::CredentialsError` constructors used by
the source: `provider_error` (the STS call itself failed) and `not_loaded`
(the call succeeded but returned no credentials). -/
inductive CredentialsError where
  | providerError (cause : String)
  | notLoaded (msg : String)
deriving Repr, DecidableEq

/-- The credentials payload of an STS AssumeRole response
(`aws_sdk_sts` model): every field is optional, `expiration` is a DateTime
that may lie before the epoch (modelled as `Int` seconds). -/
structure StsCredentials where
  access_key_id : Option String
  secret_access_key : Option String
  session_token : Option String
  expiration : Option Int
deriving Repr, DecidableEq

/-- An AssumeRole response: the `credentials` field the source reads. -/
structure AssumeRoleOutput where
  credentials : Option StsCredentials
deriving Repr, DecidableEq

/-- The provider state (struct `STSCredentialsProvider`, lib.rs lines 18-26):
immutable request configuration plus the mutable cache slot. -/
structure STSCredentialsProvider where
  role_arn : String
  external_id : Option String
  source_identity : Option String
  cred_cache : Option Credentials
  session_name : Option String
  session_duration : Option Int
  cache_timeout : Nat
deriving Repr, DecidableEq

/-- Constructor `STSCredentialsProvider::new` (lib.rs lines 29-46): copies
every parameter and starts with an empty cache slot. -/
def STSCredentialsProvider.new (role_arn : String) (external_id : Option String)
    (source_identity : Option String) (session_name : Option String)
    (session_duration : Option Int) (cache_timeout : Nat) :
    STSCredentialsProvider :=
  { role_arn := role_arn
    external_id := external_id
    source_identity := source_identity
    cred_cache := none
    session_name := session_name
    session_duration := session_duration
    cache_timeout := cache_timeout }

/-- `stored_credentials` (lib.rs lines 52-62): under the read lock, if the
slot holds a credential, compute `min_expiry_time = now + cache_timeout`,
unwrap the credential expiry (a panic when absent), and return a clone iff
`expiration > min_expiry_time`; in every other case return `None`. -/
def stored_credentials (self : STSCredentialsProvider) (now : Nat) :
    Except String (Option Credentials) :=
  match self.cred_cache with
  | none => .ok none
  | some c =>
    let min_expiry_time := now + self.cache_timeout
    match c.expiry with
    | none => .error "called Option::unwrap() on a None value"
    | some expiration =>
      if expiration > min_expiry_time then .ok (some c) else .ok none

/-- The AssumeRole request parameters as the builder chain of
`load_credentials` (lib.rs lines 67-74) sets them. -/
structure AssumeRoleRequest where
  role_arn : String
  role_session_name : Option String
  external_id : Option String
  source_identity : Option String
  duration_seconds : Option Int
deriving Repr, DecidableEq

/-- The request `load_credentials` sends: each builder setter passes the
corresponding configuration field unchanged. -/
def assume_role_request (self : STSCredentialsProvider) : AssumeRoleRequest :=
  { role_arn := self.role_arn
    role_session_name := self.session_name
    external_id := self.external_id
    source_identity := self.source_identity
    duration_seconds := self.session_duration }

/-- `load_credentials` (lib.rs lines 64-90): a failed send is mapped to
`CredentialsError::provider_error`; a successful response with no
`credentials` payload yields `CredentialsError::not_loaded` with the message
"STS Assume Role returned no credentials"; otherwise the payload is unwrapped
field by field (key id and secret key panic when absent, the expiration
panics when it cannot convert to `SystemTime`, i.e. lies before the epoch)
into a `Credentials` value labelled "STSCredentialsProvider". -/
def load_credentials (_self : STSCredentialsProvider)
    (send_result : Except String AssumeRoleOutput) :
    Except String (Except CredentialsError Credentials) :=
  match send_result with
  | .error e => .ok (.error (.providerError e))
  | .ok output =>
    match output.credentials with
    | none => .ok (.error (.notLoaded "STS Assume Role returned no credentials"))
    | some c =>
      match c.access_key_id with
      | none => .error "called Option::unwrap() on a None value"
      | some akid =>
        match c.secret_access_key with
        | none => .error "called Option::unwrap() on a None value"
        | some sk =>
          match c.expiration with
          | none => .ok (.ok ⟨akid, sk, c.session_token, none, "STSCredentialsProvider"⟩)
          | some e =>
            if e < 0 then .error "second-precision DateTime is before the epoch"
            else .ok (.ok ⟨akid, sk, c.session_token, some e.toNat, "STSCredentialsProvider"⟩)

/-- `get_credentials` (lib.rs lines 93-110): return the cached credentials
when `stored_credentials` yields some; otherwise take the write lock, call
`load_credentials` once, store `Some(clone)` on success and `None` on
failure, and return the issuer outcome.  The first component counts issuer
calls (0 on the fast path, 1 as soon as the slow path is entered). -/
def get_credentials (self : STSCredentialsProvider) (now : Nat)
    (send_result : Except String AssumeRoleOutput) :
    Nat × Except String (STSCredentialsProvider × Except CredentialsError Credentials) :=
  match stored_credentials self now with
  | .error e => (0, .error e)
  | .ok (some creds) => (0, .ok (self, .ok creds))
  | .ok none =>
    (1,
      match load_credentials self send_result with
      | .error e => .error e
      | .ok new_creds =>
        let cache : Option Credentials :=
          match new_creds with
          | .ok creds => some creds
          | .error _ => none
        .ok ({ self with cred_cache := cache }, new_creds))

/-- A sequence of `get_credentials` calls, threading the provider state and
accumulating the issuer-call count; a panic stops the sequence. -/
def get_credentials_seq : STSCredentialsProvider →
    List (Nat × Except String AssumeRoleOutput) →
    Nat × STSCredentialsProvider × List (Except CredentialsError Credentials)
  | self, [] => (0, self, [])
  | self, (now, resp) :: rest =>
    match get_credentials self now resp with
    | (k, .error _) => (k, self, [])
    | (k, .ok (self2, r)) =>
      let tail := get_credentials_seq self2 rest
      (k + tail.1, tail.2.1, r :: tail.2.2)

/- Concrete fixtures used by witnesses and counterexamples. -/

/-- A credential expiring at instant 1000. -/
def credFresh : Credentials :=
  ⟨"AKIDEXAMPLE", "SECRETEXAMPLE", none, some 1000, "STSCredentialsProvider"⟩

/-- A credential carrying no expiry instant. -/
def credNoExpiry : Credentials :=
  ⟨"AKIDEXAMPLE", "SECRETEXAMPLE", none, none, "STSCredentialsProvider"⟩

/-- A provider with margin 300 whose slot holds `credFresh`. -/
def provFresh : STSCredentialsProvider :=
  { role_arn := "arn:aws:iam::123456789012:role/demo"
    external_id := none
    source_identity := none
    cred_cache := some credFresh
    session_name := none
    session_duration := none
    cache_timeout := 300 }

/-- The same provider with `credNoExpiry` in the slot. -/
def provNoExpiry : STSCredentialsProvider :=
  { provFresh with cred_cache := some credNoExpiry }

/-- The same provider with an empty slot. -/
def provEmpty : STSCredentialsProvider :=
  { provFresh with cred_cache := none }

/-- A successful send whose payload expires at instant 5000. -/
def respOk : Except String AssumeRoleOutput :=
  .ok ⟨some ⟨some "AKIDNEW", some "SECRETNEW", some "TOKEN", some 5000⟩⟩

/-- The credential `load_credentials` builds out of `respOk`. -/
def credNew : Credentials :=
  ⟨"AKIDNEW", "SECRETNEW", some "TOKEN", some 5000, "STSCredentialsProvider"⟩

/-- A successful send whose payload expired at instant 0. -/
def respStale : Except String AssumeRoleOutput :=
  .ok ⟨some ⟨some "AKIDOLD", some "SECRETOLD", none, some 0⟩⟩

/-- The credential `load_credentials` builds out of `respStale`. -/
def credStale : Credentials :=
  ⟨"AKIDOLD", "SECRETOLD", none, some 0, "STSCredentialsProvider"⟩

/-- A failed send. -/
def respFail : Except String AssumeRoleOutput := .error "connection refused"

/-- A successful send carrying no credentials payload. -/
def respNoCreds : Except String AssumeRoleOutput := .ok ⟨none⟩

/- Helper equations for the two operations. -/

theorem stored_credentials_empty (p : STSCredentialsProvider) (now : Nat)
    (h : p.cred_cache = none) : stored_credentials p now = .ok none := by
  unfold stored_credentials; rw [h]

theorem stored_credentials_fresh (p : STSCredentialsProvider) (now : Nat)
    (c : Credentials) (e : Nat) (hc : p.cred_cache = some c)
    (he : c.expiry = some e) (hf : e > now + p.cache_timeout) :
    stored_credentials p now = .ok (some c) := by
  simp only [stored_credentials, hc, he]; simp [hf]

theorem stored_credentials_stale (p : STSCredentialsProvider) (now : Nat)
    (c : Credentials) (e : Nat) (hc : p.cred_cache = some c)
    (he : c.expiry = some e) (hf : ¬ e > now + p.cache_timeout) :
    stored_credentials p now = .ok none := by
  simp only [stored_credentials, hc, he]; simp [hf]

theorem stored_credentials_panic (p : STSCredentialsProvider) (now : Nat)
    (c : Credentials) (hc : p.cred_cache = some c) (he : c.expiry = none) :
    stored_credentials p now = .error "called Option::unwrap() on a None value" := by
  simp only [stored_credentials, hc, he]

theorem get_credentials_fast (p : STSCredentialsProvider) (now : Nat)
    (resp : Except String AssumeRoleOutput) (c : Credentials)
    (h : stored_credentials p now = .ok (some c)) :
    get_credentials p now resp = (0, .ok (p, .ok c)) := by
  unfold get_credentials; rw [h]

theorem get_credentials_slow_ok (p : STSCredentialsProvider) (now : Nat)
    (resp : Except String AssumeRoleOutput) (creds : Credentials)
    (hs : stored_credentials p now = .ok none)
    (hl : load_credentials p resp = .ok (.ok creds)) :
    get_credentials p now resp
      = (1, .ok ({ p with cred_cache := some creds }, .ok creds)) := by
  unfold get_credentials; rw [hs, hl]

theorem get_credentials_slow_err (p : STSCredentialsProvider) (now : Nat)
    (resp : Except String AssumeRoleOutput) (err : CredentialsError)
    (hs : stored_credentials p now = .ok none)
    (hl : load_credentials p resp = .ok (.error err)) :
    get_credentials p now resp
      = (1, .ok ({ p with cred_cache := none }, .error err)) := by
  unfold get_credentials; rw [hs, hl]

theorem get_credentials_slow_count (p : STSCredentialsProvider) (now : Nat)
    (resp : Except String AssumeRoleOutput)
    (hs : stored_credentials p now = .ok none) :
    (get_credentials p now resp).1 = 1 := by
  unfold get_credentials; rw [hs]

/-- A credential that expired long ago (instant 10), as stale prior slot
content. -/
def credOld : Credentials :=
  ⟨"AKIDEXAMPLE", "SECRETEXAMPLE", none, some 10, "STSCredentialsProvider"⟩

/-- A provider whose slot holds the long-expired `credOld`. -/
def provStale : STSCredentialsProvider :=
  { provFresh with cred_cache := some credOld }

/-- C1: for a cached credential carrying an expiry instant, the freshness
check used by Obtain() returns the cached credential iff
`expiry > now + margin`, where the margin is the `cache_timeout` fixed at
construction; otherwise it yields nothing and the slow path (an issuer
call) is taken. -/
theorem freshness_check_iff_margin (p : STSCredentialsProvider) (now : Nat)
    (c : Credentials) (e : Nat)
    (hc : p.cred_cache = some c) (he : c.expiry = some e) :
    (stored_credentials p now = .ok (some c) ↔ e > now + p.cache_timeout)
    ∧ (e ≤ now + p.cache_timeout →
        stored_credentials p now = .ok none
        ∧ ∀ resp, (get_credentials p now resp).1 = 1) := by
  constructor
  · constructor
    · intro hst
      by_contra hnot
      rw [stored_credentials_stale p now c e hc he hnot] at hst
      exact Option.noConfusion (Except.ok.inj hst)
    · exact stored_credentials_fresh p now c e hc he
  · intro hle
    have hst := stored_credentials_stale p now c e hc he (not_lt.mpr hle)
    exact ⟨hst, fun resp => get_credentials_slow_count p now resp hst⟩

/-- Witness for C1: `provFresh` caches `credFresh` (expiry 1000) with
margin 300, checked at instant 100. -/
theorem freshness_check_iff_margin_witness :
    stored_credentials provFresh 100 = .ok (some credFresh)
      ↔ 1000 > 100 + provFresh.cache_timeout :=
  (freshness_check_iff_margin provFresh 100 credFresh 1000 rfl rfl).1

/-- C2 counterexample: with a cached credential carrying no expiry instant,
the freshness check does not return false (nothing); it panics on the
unconditional expiry unwrap. -/
theorem no_expiry_check_counterexample :
    stored_credentials provNoExpiry 0
        = .error "called Option::unwrap() on a None value"
    ∧ stored_credentials provNoExpiry 0 ≠ .ok none := by
  refine ⟨rfl, fun h => ?_⟩
  have h2 : (Except.error "called Option::unwrap() on a None value"
      : Except String (Option Credentials)) = .ok none := h
  exact Except.noConfusion h2

/-- C2 (amended): for a cached credential with no expiry instant, the
freshness check does not fall through to the issuer: it panics on the
expiry unwrap, and Obtain() propagates that panic with zero issuer calls. -/
theorem no_expiry_panics (p : STSCredentialsProvider) (c : Credentials)
    (now : Nat) (hc : p.cred_cache = some c) (he : c.expiry = none) :
    stored_credentials p now = .error "called Option::unwrap() on a None value"
    ∧ ∀ resp, get_credentials p now resp
        = (0, .error "called Option::unwrap() on a None value") := by
  have hst := stored_credentials_panic p now c hc he
  refine ⟨hst, fun resp => ?_⟩
  unfold get_credentials
  rw [hst]

/-- Witness for C2 (amended) at `provNoExpiry`, instant 0. -/
theorem no_expiry_panics_witness :
    stored_credentials provNoExpiry 0
      = .error "called Option::unwrap() on a None value" :=
  (no_expiry_panics provNoExpiry credNoExpiry 0 rfl rfl).1

/-- C3: when the slow path is taken and the issuer call fails, Obtain()
propagates that error and leaves the slot empty whatever it held before,
so a subsequent Obtain() enters the slow path and attempts a fresh issuer
call. -/
theorem issuer_failure_clears_slot (p : STSCredentialsProvider) (now : Nat)
    (resp : Except String AssumeRoleOutput) (err : CredentialsError)
    (hs : stored_credentials p now = .ok none)
    (hl : load_credentials p resp = .ok (.error err)) :
    get_credentials p now resp
      = (1, .ok ({ p with cred_cache := none }, .error err))
    ∧ ∀ now2 resp2,
        (get_credentials { p with cred_cache := none } now2 resp2).1 = 1 :=
  ⟨get_credentials_slow_err p now resp err hs hl,
   fun now2 resp2 =>
     get_credentials_slow_count _ now2 resp2 (stored_credentials_empty _ now2 rfl)⟩

/-- Witness for C3: `provStale` holds a long-expired credential, the send
fails at instant 1000; the error propagates and the slot is cleared. -/
theorem issuer_failure_clears_slot_witness :
    get_credentials provStale 1000 respFail
      = (1, .ok ({ provStale with cred_cache := none },
          .error (.providerError "connection refused"))) :=
  (issuer_failure_clears_slot provStale 1000 respFail
      (.providerError "connection refused") rfl rfl).1

/-- C4: when the slow path is taken and the issuer call succeeds, Obtain()
stores the returned credential in the slot and returns that same credential
to the caller. -/
theorem issuer_success_stores_result (p : STSCredentialsProvider) (now : Nat)
    (resp : Except String AssumeRoleOutput) (creds : Credentials)
    (hs : stored_credentials p now = .ok none)
    (hl : load_credentials p resp = .ok (.ok creds)) :
    get_credentials p now resp
      = (1, .ok ({ p with cred_cache := some creds }, .ok creds)) :=
  get_credentials_slow_ok p now resp creds hs hl

/-- Witness for C4: empty slot, successful send `respOk` at instant 0. -/
theorem issuer_success_stores_result_witness :
    get_credentials provEmpty 0 respOk
      = (1, .ok ({ provEmpty with cred_cache := some credNew }, .ok credNew)) :=
  issuer_success_stores_result provEmpty 0 respOk credNew rfl rfl

/-- C5: while the cached credential stays fresh at each call instant, any
number of repeated Obtain() calls return the cached value, perform zero
issuer calls in total, and leave the provider unchanged. -/
theorem fresh_cache_idempotent (p : STSCredentialsProvider) (c : Credentials)
    (e : Nat) (calls : List (Nat × Except String AssumeRoleOutput))
    (hc : p.cred_cache = some c) (he : c.expiry = some e)
    (hfresh : ∀ q ∈ calls, e > q.1 + p.cache_timeout) :
    get_credentials_seq p calls = (0, p, calls.map fun _ => .ok c) := by
  induction calls with
  | nil => rfl
  | cons hd tl ih =>
    obtain ⟨now, resp⟩ := hd
    have hget : get_credentials p now resp = (0, .ok (p, .ok c)) :=
      get_credentials_fast p now resp c
        (stored_credentials_fresh p now c e hc he
          (hfresh (now, resp) (List.mem_cons_self _ _)))
    have ih2 := ih fun q hq => hfresh q (List.mem_cons_of_mem _ hq)
    unfold get_credentials_seq
    rw [hget]
    simp [ih2]

/-- Witness for C5: two calls at instants 100 and 200 on `provFresh`. -/
theorem fresh_cache_idempotent_witness :
    get_credentials_seq provFresh [(100, respFail), (200, respFail)]
      = (0, provFresh,
          [((100 : Nat), respFail), (200, respFail)].map fun _ => .ok credFresh) :=
  fresh_cache_idempotent provFresh credFresh 1000
    [(100, respFail), (200, respFail)] rfl rfl (by decide)

/-- C6: an Obtain() invocation starting with an empty cache slot performs
exactly one issuer call before returning. -/
theorem empty_slot_one_issuer_call (p : STSCredentialsProvider) (now : Nat)
    (resp : Except String AssumeRoleOutput) (h : p.cred_cache = none) :
    (get_credentials p now resp).1 = 1 :=
  get_credentials_slow_count p now resp (stored_credentials_empty p now h)

/-- Witness for C6 at `provEmpty`, instant 0, send `respOk`. -/
theorem empty_slot_one_issuer_call_witness :
    (get_credentials provEmpty 0 respOk).1 = 1 :=
  empty_slot_one_issuer_call provEmpty 0 respOk rfl

/-- C7 counterexample: at instant 1000 with margin 300, a successful fetch
whose credential already expired at instant 0 is stored in the slot as-is;
at the write instant the stored credential fails the freshness condition
`expiry > now + margin`, so the slot does end up holding a credential
already expired relative to the margin when written. -/
theorem stale_write_counterexample :
    get_credentials provEmpty 1000 respStale
      = (1, .ok ({ provEmpty with cred_cache := some credStale }, .ok credStale))
    ∧ credStale.expiry = some 0
    ∧ ¬ 0 > 1000 + provEmpty.cache_timeout :=
  ⟨rfl, rfl, by decide⟩

/-- C7 (amended): slot writes happen only on the slow path, immediately
after the fetch: a failed fetch always leaves the slot empty and a
successful fetch stores exactly the fetched credential, never retaining a
stale prior value; the code does not, however, compare the fetched
credential against the margin at the write instant — freshness is only
re-established by the check performed on each read. -/
theorem slot_write_discipline (p : STSCredentialsProvider) (now : Nat)
    (resp : Except String AssumeRoleOutput)
    (hs : stored_credentials p now = .ok none) :
    (∀ err, load_credentials p resp = .ok (.error err) →
        get_credentials p now resp
          = (1, .ok ({ p with cred_cache := none }, .error err)))
    ∧ (∀ creds, load_credentials p resp = .ok (.ok creds) →
        get_credentials p now resp
          = (1, .ok ({ p with cred_cache := some creds }, .ok creds))) :=
  ⟨fun err hl => get_credentials_slow_err p now resp err hs hl,
   fun creds hl => get_credentials_slow_ok p now resp creds hs hl⟩

/-- Witness for C7 (amended): a failed fetch over the stale slot of
`provStale` clears it. -/
theorem slot_write_discipline_witness :
    get_credentials provStale 1000 respFail
      = (1, .ok ({ provStale with cred_cache := none },
          .error (.providerError "connection refused"))) :=
  (slot_write_discipline provStale 1000 respFail rfl).1
    (.providerError "connection refused") rfl

/-- C8: a successful issuer response carrying no credentials payload makes
Obtain() fail with the distinct explicit error
`CredentialsError.notLoaded "STS Assume Role returned no credentials"` —
never an empty or default credential and never a panic — and the slot is
left empty. -/
theorem no_credentials_distinct_error (p : STSCredentialsProvider)
    (output : AssumeRoleOutput) (h : output.credentials = none) :
    load_credentials p (.ok output)
      = .ok (.error (.notLoaded "STS Assume Role returned no credentials"))
    ∧ ∀ now, stored_credentials p now = .ok none →
        get_credentials p now (.ok output)
          = (1, .ok ({ p with cred_cache := none },
              .error (.notLoaded "STS Assume Role returned no credentials"))) := by
  have hl : load_credentials p (.ok output)
      = .ok (.error (.notLoaded "STS Assume Role returned no credentials")) := by
    simp only [load_credentials, h]
  exact ⟨hl, fun now hs => get_credentials_slow_err p now _ _ hs hl⟩

/-- Witness for C8: a payload-free success on the empty provider. -/
theorem no_credentials_distinct_error_witness :
    load_credentials provEmpty (.ok ⟨none⟩)
      = .ok (.error (.notLoaded "STS Assume Role returned no credentials")) :=
  (no_credentials_distinct_error provEmpty ⟨none⟩ rfl).1

/-- C9: the issuer-request parameters are captured at construction and the
request sent is exactly those parameters; every Obtain() keeps the whole
configuration unchanged (only the cache slot may differ afterwards); the
margin (`cache_timeout`) does not influence the request, and the freshness
check reads nothing of the configuration but the slot and the margin. -/
theorem request_params_immutable :
    (∀ (role : String) (ext src sess : Option String) (dur : Option Int)
        (timeout : Nat),
        assume_role_request (STSCredentialsProvider.new role ext src sess dur timeout)
          = ⟨role, sess, ext, src, dur⟩
        ∧ (STSCredentialsProvider.new role ext src sess dur timeout).cache_timeout
            = timeout)
    ∧ (∀ (p : STSCredentialsProvider) (t : Nat),
        assume_role_request { p with cache_timeout := t } = assume_role_request p)
    ∧ (∀ (p p2 : STSCredentialsProvider) (now : Nat)
        (resp : Except String AssumeRoleOutput)
        (r : Except CredentialsError Credentials),
        (get_credentials p now resp).2 = .ok (p2, r) →
        assume_role_request p2 = assume_role_request p
        ∧ p2.cache_timeout = p.cache_timeout)
    ∧ (∀ (p q : STSCredentialsProvider) (now : Nat),
        p.cred_cache = q.cred_cache → p.cache_timeout = q.cache_timeout →
        stored_credentials p now = stored_credentials q now) := by
  refine ⟨fun role ext src sess dur timeout => ⟨rfl, rfl⟩, fun p t => rfl,
    fun p p2 now resp r h => ?_, fun p q now hcc hct => ?_⟩
  · unfold get_credentials at h
    rcases hst : stored_credentials p now with e | oc
    · rw [hst] at h
      exact Except.noConfusion h
    · rw [hst] at h
      cases oc with
      | some cc =>
        obtain ⟨hp2, _⟩ := Prod.mk.injEq .. ▸ Except.ok.inj h
        rw [← hp2]
        exact ⟨rfl, rfl⟩
      | none =>
        rcases hl : load_credentials p resp with e2 | nc
        · rw [hl] at h
          exact Except.noConfusion h
        · rw [hl] at h
          obtain ⟨hp2, _⟩ := Prod.mk.injEq .. ▸ Except.ok.inj h
          rw [← hp2]
          exact ⟨rfl, rfl⟩
  · simp only [stored_credentials, hcc, hct]

/-- Witness for C9: an Obtain() on `provEmpty` that stores `credNew` leaves
the request and the margin untouched. -/
theorem request_params_immutable_witness :
    assume_role_request { provEmpty with cred_cache := some credNew }
      = assume_role_request provEmpty
    ∧ ({ provEmpty with cred_cache := some credNew }
        : STSCredentialsProvider).cache_timeout = provEmpty.cache_timeout :=
  request_params_immutable.2.2.1 provEmpty
    { provEmpty with cred_cache := some credNew } 0 respOk (.ok credNew) rfl

/-- C10: the fast path never writes the slot: when the freshness check
yields a credential, Obtain() returns it with the provider — hence the
slot — exactly as before and zero issuer calls; and any Obtain() that
changes the slot content entered the slow path (one issuer call), so the
slot is written only there. -/
theorem fast_path_frame (p : STSCredentialsProvider) (now : Nat)
    (c : Credentials) (hfresh : stored_credentials p now = .ok (some c)) :
    (∀ resp, get_credentials p now resp = (0, .ok (p, .ok c)))
    ∧ (∀ (q q2 : STSCredentialsProvider) (now2 : Nat)
        (resp2 : Except String AssumeRoleOutput)
        (r : Except CredentialsError Credentials),
        (get_credentials q now2 resp2).2 = .ok (q2, r) →
        q2.cred_cache ≠ q.cred_cache →
        (get_credentials q now2 resp2).1 = 1) := by
  refine ⟨fun resp => get_credentials_fast p now resp c hfresh,
    fun q q2 now2 resp2 r h hne => ?_⟩
  unfold get_credentials at h ⊢
  rcases hst : stored_credentials q now2 with e | oc
  · rw [hst] at h
    exact Except.noConfusion h
  · rw [hst] at h
    cases oc with
    | some cc =>
      obtain ⟨hq2, _⟩ := Prod.mk.injEq .. ▸ Except.ok.inj h
      exact absurd (hq2 ▸ rfl) hne
    | none => rfl

/-- Witness for C10: a fast-path Obtain() on `provFresh` at instant 100
returns `credFresh` with the provider unchanged and zero issuer calls. -/
theorem fast_path_frame_witness :
    get_credentials provFresh 100 respFail
      = (0, .ok (provFresh, .ok credFresh)) :=
  (fast_path_frame provFresh 100 credFresh rfl).1 respFail

end STSCaching
